import Mathlib

/-!
Shallow embedding of the Optio data dashboard's unit-conversion, formatting,
reconciliation, caching and section-rendering logic
(`src/util/helpers.py` and `src/streamlit_app.py`).

Python floats are modelled as exact rationals (`ℚ`); Python exceptions as an
explicit `Except PyErr` result; `None` as `Option`/a dedicated constructor.
-/

namespace Optio

/-- Python runtime values that can reach the helpers: `None`, ints, floats,
`decimal.Decimal` values (warehouse numeric columns), and strings. -/
inductive PyVal where
  | none
  | int (n : ℤ)
  | float (q : ℚ)
  | decimal (q : ℚ)
  | str (s : String)
deriving DecidableEq

/-- Python exceptions relevant to the embedded code. -/
inductive PyErr where
  | typeError
  | valueError
  | zeroDivisionError
  | runtimeError (msg : String)
deriving DecidableEq

instance {ε α : Type} [DecidableEq ε] [DecidableEq α] : DecidableEq (Except ε α) := fun x y =>
  match x, y with
  | Except.ok a, Except.ok b =>
      if h : a = b then isTrue (by rw [h])
      else isFalse (fun he => h (Except.ok.injEq a b ▸ he))
  | Except.ok _, Except.error _ => isFalse (fun he => Except.noConfusion he)
  | Except.error _, Except.ok _ => isFalse (fun he => Except.noConfusion he)
  | Except.error a, Except.error b =>
      if h : a = b then isTrue (by rw [h])
      else isFalse (fun he => h (Except.error.injEq a b ▸ he))

@[simp] theorem except_map_ok {ε α β : Type} (f : α → β) (a : α) :
    Except.map f (Except.ok a : Except ε α) = Except.ok (f a) := rfl

@[simp] theorem except_map_error {ε α β : Type} (f : α → β) (e : ε) :
    Except.map f (Except.error e : Except ε α) = Except.error e := rfl

@[simp] theorem except_bind_ok {ε α β : Type} (a : α) (f : α → Except ε β) :
    (Except.ok a >>= f : Except ε β) = f a := rfl

@[simp] theorem except_bind_error {ε α β : Type} (e : ε) (f : α → Except ε β) :
    ((Except.error e : Except ε α) >>= f) = Except.error e := rfl

/-- Value of a digit-char list read as a base-10 natural number. -/
def digitsToNat (cs : List Char) : ℕ :=
  cs.foldl (fun acc c => acc * 10 + (c.toNat - 48)) 0

/-- Numeric-string parsing as done by Python `float(...)` restricted to plain
decimal literals: optional sign, digits, optional fractional part (at least
one digit overall). Non-literal inputs (e.g. `"abc"`) yield `Option.none`,
matching a `ValueError` from `float`. -/
def strToRat? (s : String) : Option ℚ :=
  let cs := s.data
  let signed : Bool × List Char :=
    match cs with
    | '-' :: r => (true, r)
    | '+' :: r => (false, r)
    | r => (false, r)
  let intPart := signed.2.takeWhile Char.isDigit
  let rest := signed.2.dropWhile Char.isDigit
  let mag? : Option ℚ :=
    match rest with
    | [] =>
        if intPart.isEmpty then Option.none
        else some ((digitsToNat intPart : ℚ))
    | '.' :: fracPart =>
        if fracPart.all Char.isDigit ∧ ¬(intPart.isEmpty ∧ fracPart.isEmpty) then
          some ((digitsToNat intPart : ℚ) +
            (digitsToNat fracPart : ℚ) / (10 : ℚ) ^ fracPart.length)
        else Option.none
    | _ => Option.none
  mag?.map (fun q => if signed.1 then -q else q)

/-- Integer-string parsing as done by Python `int(...)`: optional sign and a
non-empty run of digits only. -/
def strToInt? (s : String) : Option ℤ :=
  let cs := s.data
  let signed : Bool × List Char :=
    match cs with
    | '-' :: r => (true, r)
    | '+' :: r => (false, r)
    | r => (false, r)
  if signed.2.isEmpty ∨ ¬signed.2.all Char.isDigit then Option.none
  else some (if signed.1 then -(digitsToNat signed.2 : ℤ) else (digitsToNat signed.2 : ℤ))

/-- Python `float(x)`: identity-like on numerics (ints, floats, Decimals),
parses numeric strings, raises `TypeError` on `None` and `ValueError` on
non-numeric strings. -/
def pyFloat : PyVal → Except PyErr ℚ
  | PyVal.none => Except.error PyErr.typeError
  | PyVal.int n => Except.ok (n : ℚ)
  | PyVal.float q => Except.ok q
  | PyVal.decimal q => Except.ok q
  | PyVal.str s =>
      match strToRat? s with
      | some q => Except.ok q
      | Option.none => Except.error PyErr.valueError

/-- Truncation toward zero, as Python `int(...)` applied to a float. -/
def ratTrunc (q : ℚ) : ℤ :=
  if q < 0 then -(⌊-q⌋) else ⌊q⌋

/-- Python `int(x)`: ints pass through, floats/Decimals truncate toward zero,
strings must be integer literals, `None` raises `TypeError`. -/
def pyIntCast : PyVal → Except PyErr ℤ
  | PyVal.none => Except.error PyErr.typeError
  | PyVal.int n => Except.ok n
  | PyVal.float q => Except.ok (ratTrunc q)
  | PyVal.decimal q => Except.ok (ratTrunc q)
  | PyVal.str s =>
      match strToInt? s with
      | some n => Except.ok n
      | Option.none => Except.error PyErr.valueError

/-- Round half-to-even (Python float formatting rounding) of a rational to an
integer. -/
def rhe (x : ℚ) : ℤ :=
  let f := ⌊x⌋
  let frac := x - (f : ℚ)
  if frac < 1/2 then f
  else if 1/2 < frac then f + 1
  else if f % 2 = 0 then f else f + 1

/-- Insert a comma after every third char of a least-significant-first digit
list (helper for Python's `,` thousands grouping). -/
def groupRev : List Char → List Char
  | a :: b :: c :: d :: rest => a :: b :: c :: ',' :: groupRev (d :: rest)
  | l => l

/-- Thousands-grouped decimal rendering of a natural number, as Python
`f"{n:,}"` for nonnegative `n`. -/
def natGroup (n : ℕ) : String :=
  String.mk ((groupRev (Nat.repr n).data.reverse).reverse)

/-- Python `f"{q:,.0f}"`: round half-to-even to a whole number, thousands
grouping, minus sign taken from the input's sign. -/
def fmtGroup0 (q : ℚ) : String :=
  let body := natGroup (rhe |q|).toNat
  if q < 0 then "-" ++ body else body

/-- Python `f"{q:.2f}"`: two decimals, round half-to-even, no grouping. -/
def fmt2 (q : ℚ) : String :=
  let m := (rhe (|q| * 100)).toNat
  let ip := m / 100
  let fp := m % 100
  let fpStr := (if fp < 10 then "0" else "") ++ Nat.repr fp
  (if q < 0 then "-" else "") ++ Nat.repr ip ++ "." ++ fpStr

/-- Python `f"{n:,}"` on an integer. -/
def intGroup (n : ℤ) : String :=
  if n < 0 then "-" ++ natGroup n.natAbs else natGroup n.natAbs

/-- `UOPT_PER_OPT` from `src/util/helpers.py` line 3. -/
def UOPT_PER_OPT : ℚ := 1000000

/-- `to_opt` from `src/util/helpers.py` lines 5-8:
`if x is None: return None; return float(x) / UOPT_PER_OPT`. -/
def to_opt (x : PyVal) : Except PyErr (Option ℚ) :=
  match x with
  | PyVal.none => Except.ok Option.none
  | v => (pyFloat v).map (fun q => some (q / UOPT_PER_OPT))

/-- One element of `to_opt_series` from `src/util/helpers.py` lines 11-13:
`pd.to_numeric(s, errors="coerce") / UOPT_PER_OPT` — non-numeric entries
coerce to NaN (modelled `Option.none`) instead of raising. -/
def to_opt_series_elem (x : PyVal) : Option ℚ :=
  match pyFloat x with
  | Except.ok q => some (q / UOPT_PER_OPT)
  | Except.error _ => Option.none

/-- `fmt_opt` from `src/util/helpers.py` lines 16-20:
`try: return f"{float(x):,.0f}" except Exception: return "—"`. -/
def fmt_opt (x : PyVal) : String :=
  match pyFloat x with
  | Except.ok q => fmtGroup0 q
  | Except.error _ => "—"

/-- The `[("T", 1e12), ("B", 1e9), ("M", 1e6), ("K", 1e3)]` unit table of
`human`, `src/util/helpers.py` line 26. -/
def humanUnits : List (String × ℚ) :=
  [("T", 10 ^ 12), ("B", 10 ^ 9), ("M", 10 ^ 6), ("K", 10 ^ 3)]

/-- The loop of `human`, `src/util/helpers.py` lines 26-29: first unit with
`abs(n) >= div` wins; otherwise `f"{n:,.0f}"`. -/
def humanLoop (n : ℚ) : List (String × ℚ) → String
  | [] => fmtGroup0 n
  | (unit, div) :: rest =>
      if |n| ≥ div then fmt2 (n / div) ++ unit else humanLoop n rest

/-- `human` from `src/util/helpers.py` lines 23-29. Note the body starts with
`n = float(n)`, with no try/except around it. -/
def human (v : PyVal) : Except PyErr String :=
  (pyFloat v).map (fun n => humanLoop n humanUnits)

/-- `fmt_int` from `src/util/helpers.py` lines 31-35:
`try: return f"{int(n):,}" except Exception: return "—"`. -/
def fmt_int (n : PyVal) : String :=
  match pyIntCast n with
  | Except.ok m => intGroup m
  | Except.error _ => "—"

/-- Python subtraction on possibly-`None` floats: a `None` operand raises
`TypeError` (as in `total_opt - staked_opt`, `src/streamlit_app.py` line 125). -/
def pySubOpt (a b : Option ℚ) : Except PyErr ℚ :=
  match a, b with
  | some x, some y => Except.ok (x - y)
  | _, _ => Except.error PyErr.typeError

/-- The reconciliation arithmetic of `src/streamlit_app.py` lines 125-126:
`recomputed_liquid = total_opt - staked_opt - locked_opt` and
`liquid_delta = liquid_opt - recomputed_liquid`, on the `Option`-valued
outputs of `to_opt`; there is no null guard around the subtractions. -/
def reconcile (total staked locked liquid : Option ℚ) : Except PyErr (ℚ × ℚ) := do
  let d1 ← pySubOpt total staked
  let recomputed ← pySubOpt (some d1) locked
  let delta ← pySubOpt liquid (some recomputed)
  return (recomputed, delta)

/-- `recomputed_liquid`, `src/streamlit_app.py` line 125, on non-null amounts. -/
def recomputed_liquid (total staked locked : ℚ) : ℚ :=
  total - staked - locked

/-- `liquid_delta`, `src/streamlit_app.py` line 126, on non-null amounts. -/
def liquid_delta (total staked locked liquid : ℚ) : ℚ :=
  liquid - recomputed_liquid total staked locked

/-- The warning condition of `src/streamlit_app.py` line 142:
`abs(liquid_delta) > 0.5`. -/
def sanity_warning (total staked locked liquid : ℚ) : Bool :=
  decide (|liquid_delta total staked locked liquid| > 0.5)

/-- Python truthiness of an optional float, as in `if total_opt`:
`None` and `0.0` are falsy. -/
def truthyOpt : Option ℚ → Bool
  | Option.none => false
  | some q => decide (q ≠ 0)

/-- Python float division: a zero divisor raises `ZeroDivisionError`. -/
def pyDiv (a b : ℚ) : Except PyErr ℚ :=
  if b = 0 then Except.error PyErr.zeroDivisionError else Except.ok (a / b)

/-- One entry of the `Percent` column of `pct_df`, `src/streamlit_app.py`
lines 152-156: `(component / total_opt * 100) if total_opt else 0.0`. -/
def pct_entry (component : ℚ) (total : Option ℚ) : Except PyErr ℚ :=
  if truthyOpt total then
    match total with
    | some t => (pyDiv component t).map (fun r => r * 100)
    | Option.none => Except.error PyErr.typeError
  else Except.ok 0

/-- `BUCKET_ORDER` from `src/streamlit_app.py` line 191. -/
def BUCKET_ORDER : List String :=
  ["1W", "1M", "6M", "12M", "18M", "24M", "24M+"]

/-- Sort key induced by `pd.Categorical(..., categories=BUCKET_ORDER,
ordered=True)` (lines 193-195): the label's position in the enumeration;
labels outside it become NaN, which `sort_values` places last
(`List.indexOf` returns the list's length for absent elements). -/
def bucketRank (s : String) : ℕ :=
  BUCKET_ORDER.indexOf s

/-- The comparison used by `buckets.sort_values("unlock_bucket")`, line 197. -/
def bucketsLe (a b : String) : Prop :=
  bucketRank a ≤ bucketRank b

instance : DecidableRel bucketsLe :=
  fun a b => Nat.decLe (bucketRank a) (bucketRank b)

instance : IsTotal String bucketsLe :=
  ⟨fun a b => Nat.le_total (bucketRank a) (bucketRank b)⟩

instance : IsTrans String bucketsLe :=
  ⟨fun _ _ _ => Nat.le_trans⟩

/-- Strict version of `bucketsLe`, used to pin down the sorted order. -/
def bucketsLt (a b : String) : Prop :=
  bucketRank a < bucketRank b

instance : IsAntisymm String bucketsLt :=
  ⟨fun _ _ h1 h2 => (Nat.lt_asymm h1 h2).elim⟩

/-- `buckets.sort_values("unlock_bucket")` (line 197) on the rows' bucket
labels: sort by categorical rank. -/
def sortBuckets (rows : List String) : List String :=
  rows.insertionSort bucketsLe

/-- Outcome of one warehouse fetch for a dashboard section: the query raised,
returned zero rows, or returned data. -/
inductive FetchResult where
  | failure
  | empty
  | rows
deriving DecidableEq

/-- The dashboard's sections, in script order. -/
inductive DashSection where
  | supplySec
  | bucketsSec
  | calendarSec
  | distSec
deriving DecidableEq

/-- User-visible events of one render cycle: a section rendered, an error was
shown (`st.error`), or a warning was shown (`st.warning`). -/
inductive Event where
  | rendered (s : DashSection)
  | errorShown (s : DashSection)
  | warned (s : DashSection)
deriving DecidableEq

/-- Holder-distribution stage, `src/streamlit_app.py` lines 255-290: a fetch
failure does `st.error(...); st.stop()` (script terminates); an empty result
warns; otherwise the section renders. -/
def distStage : FetchResult → List Event
  | FetchResult.failure => [Event.errorShown DashSection.distSec]
  | FetchResult.empty => [Event.warned DashSection.distSec]
  | FetchResult.rows => [Event.rendered DashSection.distSec]

/-- Unlock-calendar stage and the script after it, lines 219-247. -/
def calStage (cal dist : FetchResult) : List Event :=
  match cal with
  | FetchResult.failure => [Event.errorShown DashSection.calendarSec]
  | FetchResult.empty => Event.warned DashSection.calendarSec :: distStage dist
  | FetchResult.rows => Event.rendered DashSection.calendarSec :: distStage dist

/-- Unlock-buckets stage and the script after it, lines 178-211. -/
def bucketsStage (buckets cal dist : FetchResult) : List Event :=
  match buckets with
  | FetchResult.failure => [Event.errorShown DashSection.bucketsSec]
  | FetchResult.empty => Event.warned DashSection.bucketsSec :: calStage cal dist
  | FetchResult.rows => Event.rendered DashSection.bucketsSec :: calStage cal dist

/-- One render cycle of the script body from the supply query on
(`src/streamlit_app.py` lines 100-290). Every `except` branch runs
`st.error(str(e)); st.stop()`, and `st.stop()` terminates the whole script
run, so no later section executes after a fetch failure. An empty supply
result is also fatal (lines 114-116). -/
def renderCycle (supply buckets cal dist : FetchResult) : List Event :=
  match supply with
  | FetchResult.failure => [Event.errorShown DashSection.supplySec]
  | FetchResult.empty => [Event.errorShown DashSection.supplySec]
  | FetchResult.rows => Event.rendered DashSection.supplySec :: bucketsStage buckets cal dist

/-- Modelled from the spec: the `@st.cache_data(ttl=300)` memoization layer on
`query_df` (`src/streamlit_app.py` line 51) is external library code not under
`src/`; the spec's QueryCache contract (§4.3) describes it as a map from query
key to (result rows, fetch timestamp). -/
structure QueryCache (κ α : Type) where
  entries : List (κ × α × ℕ)

/-- Stored (value, fetch-timestamp) pair for a key, if any. -/
def QueryCache.lookup {κ α : Type} [DecidableEq κ] (c : QueryCache κ α) (k : κ) :
    Option (α × ℕ) :=
  (c.entries.find? (fun e => decide (e.1 = k))).map (fun e => e.2)

/-- Modelled from the spec (§4.3): a cache miss performs the underlying read;
the result and the current timestamp are stored only on success, and a failed
read propagates with nothing stored. -/
def cacheMiss {κ α : Type} (run : κ → Except PyErr α) (now : ℕ)
    (c : QueryCache κ α) (k : κ) : (Except PyErr α × Bool) × QueryCache κ α :=
  match run k with
  | Except.ok v => ((Except.ok v, false), ⟨(k, v, now) :: c.entries⟩)
  | Except.error e => ((Except.error e, false), c)

/-- Modelled from the spec (§4.3): `get(queryKey, ttlSeconds)` — a stored
entry younger than the TTL is returned with `fromCache = true`; otherwise the
underlying read runs via `cacheMiss`. -/
def cachedGet {κ α : Type} [DecidableEq κ] (run : κ → Except PyErr α)
    (ttl now : ℕ) (c : QueryCache κ α) (k : κ) :
    (Except PyErr α × Bool) × QueryCache κ α :=
  match c.lookup k with
  | some (v, t) =>
      if now - t ≤ ttl then ((Except.ok v, true), c)
      else cacheMiss run now c k
  | Option.none => cacheMiss run now c k

/-- The message wrapping of `query_df`, `src/streamlit_app.py` line 66. -/
def dbWrapMsg (e : String) : String :=
  "Databricks query failed (possible local DNS/network). Details: " ++ e

/-- The body of `query_df`, `src/streamlit_app.py` lines 52-66: a successful
read returns the rows; a failed read re-raises as
`RuntimeError("Databricks query failed (possible local DNS/network). Details: "
+ e)`. -/
def query_df_body {α : Type} (read : Except String α) : Except PyErr α :=
  match read with
  | Except.ok rows => Except.ok rows
  | Except.error e => Except.error (PyErr.runtimeError (dbWrapMsg e))

/-- `query_df` as deployed: the spec-modelled cache layer over the
`query_df` body, with the source's TTL of 300 seconds. -/
def query_df_cached {κ α : Type} [DecidableEq κ] (read : κ → Except String α)
    (now : ℕ) (c : QueryCache κ α) (k : κ) :
    (Except PyErr α × Bool) × QueryCache κ α :=
  cachedGet (fun k2 => query_df_body (read k2)) 300 now c k

end Optio

namespace Optio

example : to_opt (PyVal.int 3000000) = Except.ok (some 3) := by with_unfolding_all decide
example : to_opt PyVal.none = Except.ok Option.none := by with_unfolding_all decide
example : to_opt (PyVal.str "abc") = Except.error PyErr.valueError := by with_unfolding_all decide
example : fmt_opt (PyVal.float (12345678/10)) = "1,234,568" := by with_unfolding_all decide
example : fmt_int (PyVal.int 1234567) = "1,234,567" := by with_unfolding_all decide
example : fmt_int (PyVal.str "not a number") = "—" := by with_unfolding_all decide
example : human (PyVal.int 1000000) = Except.ok "1.00M" := by with_unfolding_all decide
example : human (PyVal.int 999) = Except.ok "999" := by with_unfolding_all decide
example : human (PyVal.int 1000000000000) = Except.ok "1.00T" := by with_unfolding_all decide
example : human (PyVal.int 0) = Except.ok "0" := by with_unfolding_all decide
example : human (PyVal.int 1234567) = Except.ok "1.23M" := by with_unfolding_all decide

/-- C1: for any four non-null display-unit amounts, the controller computes
`recomputedLiquid = total - staked - locked` and
`delta = liquid - recomputedLiquid`, and it surfaces the reconciliation
warning exactly when `|delta| > 0.5` display-units. -/
theorem c1_reconciliation (total staked locked liquid : ℚ) :
    reconcile (some total) (some staked) (some locked) (some liquid) =
      Except.ok (recomputed_liquid total staked locked,
        liquid_delta total staked locked liquid)
    ∧ recomputed_liquid total staked locked = total - staked - locked
    ∧ liquid_delta total staked locked liquid = liquid - (total - staked - locked)
    ∧ (sanity_warning total staked locked liquid = true ↔
        |liquid - (total - staked - locked)| > 0.5) := by
  refine ⟨rfl, rfl, rfl, ?_⟩
  simp [sanity_warning, liquid_delta, recomputed_liquid]

/-- C2 counterexample: `to_opt` on a non-numeric string raises `ValueError`
(Python `float("abc")` raises), instead of returning a not-a-number sentinel
as the claim states. -/
theorem c2_counterexample :
    to_opt (PyVal.str "abc") = Except.error PyErr.valueError := by
  with_unfolding_all decide

/-- C2 amended: the scalar converter `to_opt` does not raise on `None` or any
numeric input (ints, floats, decimals, numeric strings), but a non-numeric
string raises `ValueError`; it is the bulk converter `to_opt_series` whose
elements coerce non-numeric input to a not-a-number marker. -/
theorem c2_amended :
    to_opt PyVal.none = Except.ok Option.none
    ∧ (∀ n : ℤ, to_opt (PyVal.int n) = Except.ok (some ((n : ℚ) / 1000000)))
    ∧ (∀ q : ℚ, to_opt (PyVal.float q) = Except.ok (some (q / 1000000)))
    ∧ (∀ q : ℚ, to_opt (PyVal.decimal q) = Except.ok (some (q / 1000000)))
    ∧ (∀ s : String, to_opt (PyVal.str s) =
        match strToRat? s with
        | some q => Except.ok (some (q / 1000000))
        | Option.none => Except.error PyErr.valueError)
    ∧ (∀ s : String, strToRat? s = Option.none →
        to_opt_series_elem (PyVal.str s) = Option.none) := by
  refine ⟨rfl, fun n => rfl, fun q => rfl, fun q => rfl, fun s => ?_, fun s h => ?_⟩
  · cases h : strToRat? s <;> simp [to_opt, pyFloat, h, UOPT_PER_OPT]
  · simp [to_opt_series_elem, pyFloat, h]

/-- C2 amended witness: concrete instances — a numeric string converts, a
non-numeric string raises in `to_opt` and coerces to the missing marker in
`to_opt_series`. -/
theorem c2_amended_witness :
    strToRat? "xyz" = Option.none
    ∧ to_opt_series_elem (PyVal.str "xyz") = Option.none :=
  ⟨by with_unfolding_all decide,
   c2_amended.2.2.2.2.2 "xyz" (by with_unfolding_all decide)⟩

/-- C3 counterexample: `human` has no try/except, so a value that cannot be
coerced to numeric raises (`ValueError`) instead of returning a placeholder
string as the claim states. -/
theorem c3_counterexample :
    human (PyVal.str "n/a") = Except.error PyErr.valueError := by
  with_unfolding_all decide

/-- C3 amended: `fmt_opt` and `fmt_int` recover locally, returning the
placeholder `"—"` whenever numeric coercion fails, and always return a
string; `human` propagates the coercion exception on non-numeric input
instead of substituting a placeholder. -/
theorem c3_amended (v : PyVal) (e : PyErr) :
    (pyFloat v = Except.error e → fmt_opt v = "—" ∧ human v = Except.error e)
    ∧ (pyIntCast v = Except.error e → fmt_int v = "—") := by
  constructor
  · intro h
    exact ⟨by simp [fmt_opt, h], by simp [human, h, Except.map]⟩
  · intro h
    simp [fmt_int, h]

/-- C3 amended witness: at the non-numeric string `"zzz"`, `fmt_opt` returns
the placeholder while `human` raises. -/
theorem c3_amended_witness :
    pyFloat (PyVal.str "zzz") = Except.error PyErr.valueError
    ∧ fmt_opt (PyVal.str "zzz") = "—"
    ∧ human (PyVal.str "zzz") = Except.error PyErr.valueError := by
  have h : pyFloat (PyVal.str "zzz") = Except.error PyErr.valueError := by
    with_unfolding_all decide
  have h2 := (c3_amended (PyVal.str "zzz") PyErr.valueError).1 h
  exact ⟨h, h2.1, h2.2⟩

/-- C4: `human` picks the largest applicable unit among T (1e12), B (1e9),
M (1e6), K (1e3) by `>=` comparison on the magnitude in descending order with
two decimals, falling back to a thousands-grouped integer below 1e3; in
particular `human 1_000_000 = "1.00M"`, `human 999 = "999"`,
`human 1e12 = "1.00T"`, `human 0 = "0"`. -/
theorem c4_human_units (q : ℚ) :
    humanLoop q humanUnits =
      (if |q| ≥ 10 ^ 12 then fmt2 (q / 10 ^ 12) ++ "T"
       else if |q| ≥ 10 ^ 9 then fmt2 (q / 10 ^ 9) ++ "B"
       else if |q| ≥ 10 ^ 6 then fmt2 (q / 10 ^ 6) ++ "M"
       else if |q| ≥ 10 ^ 3 then fmt2 (q / 10 ^ 3) ++ "K"
       else fmtGroup0 q)
    ∧ human (PyVal.int 1000000) = Except.ok "1.00M"
    ∧ human (PyVal.int 999) = Except.ok "999"
    ∧ human (PyVal.int 1000000000000) = Except.ok "1.00T"
    ∧ human (PyVal.int 0) = Except.ok "0" := by
  refine ⟨?_, ?_, ?_, ?_, ?_⟩
  · simp [humanLoop, humanUnits]
  all_goals with_unfolding_all decide

/-- C5: `to_opt` of a non-negative integer `b` is exactly `b / 1_000_000`
display-units, and `to_opt` of null is null. -/
theorem c5_to_opt_scaling :
    (∀ b : ℕ, to_opt (PyVal.int b) = Except.ok (some ((b : ℚ) / 1000000)))
    ∧ to_opt PyVal.none = Except.ok Option.none := by
  refine ⟨fun b => ?_, rfl⟩
  simp [to_opt, pyFloat, UOPT_PER_OPT]

/-- C7: each percent-of-total entry is `component / total * 100` when `total`
is non-zero, `0.0` when `total` is zero or null, and never a
division-by-zero (or any other) error. -/
theorem c7_pct_entry (component : ℚ) (total : Option ℚ) :
    pct_entry component total =
      Except.ok (match total with
                 | Option.none => 0
                 | some t => if t = 0 then 0 else component / t * 100) := by
  cases total with
  | none => rfl
  | some t =>
    by_cases h : t = 0
    · subst h
      simp [pct_entry, truthyOpt]
    · simp [pct_entry, truthyOpt, h, pyDiv]

/-- C10 (implicit): `to_opt` maps a null field to `None`, and the
reconciliation arithmetic, which has no null guard, raises `TypeError` as
soon as any of the four supply amounts is `None`. -/
theorem c10_null_reconciliation :
    to_opt PyVal.none = Except.ok Option.none
    ∧ ∀ total staked locked liquid : Option ℚ,
        (total = Option.none ∨ staked = Option.none ∨ locked = Option.none
          ∨ liquid = Option.none) →
        reconcile total staked locked liquid = Except.error PyErr.typeError := by
  refine ⟨rfl, ?_⟩
  intro t s l q h
  cases t <;> cases s <;> cases l <;> cases q <;>
    simp_all [reconcile, pySubOpt, Except.bind]

/-- C10 witness: with a null total (and the other three present) the
reconciliation step raises `TypeError`. -/
theorem c10_null_reconciliation_witness :
    reconcile Option.none (some 1) (some 2) (some 3) =
      Except.error PyErr.typeError :=
  c10_null_reconciliation.2 Option.none (some 1) (some 2) (some 3) (Or.inl rfl)

/-- C6 counterexample: with a failing unlock-buckets fetch and healthy
calendar/distribution fetches, the render cycle emits only the supply section
and the buckets error — the sibling calendar and distribution sections do not
render, because the `except` branch runs `st.stop()` and terminates the whole
script. -/
theorem c6_counterexample :
    renderCycle FetchResult.rows FetchResult.failure FetchResult.rows
        FetchResult.rows =
      [Event.rendered DashSection.supplySec,
       Event.errorShown DashSection.bucketsSec]
    ∧ Event.rendered DashSection.calendarSec ∉
        renderCycle FetchResult.rows FetchResult.failure FetchResult.rows
          FetchResult.rows
    ∧ Event.rendered DashSection.distSec ∉
        renderCycle FetchResult.rows FetchResult.failure FetchResult.rows
          FetchResult.rows := by
  refine ⟨rfl, ?_, ?_⟩ <;> decide

/-- C6 amended: a fetch failure in an optional section reports an error for
that section and terminates the render cycle: sections rendered before the
failing one stay rendered, but sibling sections after it do not render. -/
theorem c6_amended :
    (∀ cal dist : FetchResult,
      renderCycle FetchResult.rows FetchResult.failure cal dist =
        [Event.rendered DashSection.supplySec,
         Event.errorShown DashSection.bucketsSec])
    ∧ (∀ dist : FetchResult,
        renderCycle FetchResult.rows FetchResult.rows FetchResult.failure dist =
          [Event.rendered DashSection.supplySec,
           Event.rendered DashSection.bucketsSec,
           Event.errorShown DashSection.calendarSec])
    ∧ renderCycle FetchResult.rows FetchResult.rows FetchResult.rows
        FetchResult.failure =
        [Event.rendered DashSection.supplySec,
         Event.rendered DashSection.bucketsSec,
         Event.rendered DashSection.calendarSec,
         Event.errorShown DashSection.distSec] :=
  ⟨fun _ _ => rfl, fun _ => rfl, rfl⟩

/-- C8: if the underlying read fails inside the cached `query_df`, the failure
propagates to the caller as the wrapped `RuntimeError`, no cache entry is
stored for the key, and a subsequent call with the same key re-invokes the
underlying read instead of replaying a cached failure. -/
theorem c8_cache_failure_isolation {κ α : Type} [DecidableEq κ]
    (read : κ → Except String α) (now : ℕ) (c : QueryCache κ α) (k : κ)
    (e : String) (hmiss : c.lookup k = Option.none)
    (hfail : read k = Except.error e) :
    (query_df_cached read now c k).1.1 =
      Except.error (PyErr.runtimeError (dbWrapMsg e))
    ∧ (query_df_cached read now c k).2 = c
    ∧ ∀ (read2 : κ → Except String α) (v : α) (now2 : ℕ),
        read2 k = Except.ok v →
        (query_df_cached read2 now2 ((query_df_cached read now c k).2) k).1 =
          (Except.ok v, false) := by
  have h1 : query_df_cached read now c k =
      ((Except.error (PyErr.runtimeError (dbWrapMsg e)), false), c) := by
    simp [query_df_cached, cachedGet, hmiss, cacheMiss, query_df_body, hfail]
  refine ⟨by rw [h1], by rw [h1], ?_⟩
  intro read2 v now2 hok
  rw [h1]
  simp [query_df_cached, cachedGet, hmiss, cacheMiss, query_df_body, hok]

theorem bucketRank_eq_length {s : String} (h : s ∉ BUCKET_ORDER) :
    bucketRank s = BUCKET_ORDER.length :=
  List.indexOf_eq_length.mpr h

theorem bucketRank_lt_length {s : String} (h : s ∈ BUCKET_ORDER) :
    bucketRank s < BUCKET_ORDER.length :=
  List.indexOf_lt_length.mpr h

instance : DecidableRel bucketsLt :=
  fun a b => Nat.decLt (bucketRank a) (bucketRank b)

/-- C9: sorting unlock-bucket rows by the fixed enumeration loses no row and
never raises (the sort is a permutation), orders the output by the
enumeration's rank, places unrecognized labels last, and — when the labels
are a subset of the enumeration — reproduces exactly the enumeration's
relative order for the present subset. -/
theorem c9_bucket_order (rows : List String) :
    List.Perm (sortBuckets rows) rows
    ∧ List.Pairwise bucketsLe (sortBuckets rows)
    ∧ List.Pairwise (fun a b => a ∉ BUCKET_ORDER → b ∉ BUCKET_ORDER)
        (sortBuckets rows)
    ∧ ((∀ s ∈ rows, s ∈ BUCKET_ORDER) → rows.Nodup →
        sortBuckets rows = BUCKET_ORDER.filter (fun b => decide (b ∈ rows))) := by
  have hperm : List.Perm (sortBuckets rows) rows := List.perm_insertionSort bucketsLe rows
  have hsorted : List.Sorted bucketsLe (sortBuckets rows) :=
    List.sorted_insertionSort bucketsLe rows
  refine ⟨hperm, hsorted, ?_, ?_⟩
  · refine List.Pairwise.imp ?_ hsorted
    intro a b hab ha hb
    have hge : BUCKET_ORDER.length ≤ bucketRank b := bucketRank_eq_length ha ▸ hab
    exact absurd hge (Nat.not_le.mpr (bucketRank_lt_length hb))
  · intro hsub hnod
    have hnodSort : (sortBuckets rows).Nodup := hperm.nodup_iff.mpr hnod
    have hmemSort : ∀ a ∈ sortBuckets rows, a ∈ BUCKET_ORDER :=
      fun a ha => hsub a (hperm.mem_iff.mp ha)
    have hstrict : List.Sorted bucketsLt (sortBuckets rows) := by
      refine List.Pairwise.imp_of_mem ?_ (List.Pairwise.and hsorted hnodSort)
      intro a b ha hb hab
      exact Nat.lt_of_le_of_ne hab.1
        (fun he => hab.2 ((List.indexOf_inj (hmemSort a ha) (hmemSort b hb)).mp he))
    have hBO : List.Pairwise bucketsLt BUCKET_ORDER := by decide
    have htarget :
        List.Pairwise bucketsLt (BUCKET_ORDER.filter (fun b => decide (b ∈ rows))) :=
      List.Pairwise.filter _ hBO
    have hpermFilter :
        List.Perm (sortBuckets rows) (BUCKET_ORDER.filter (fun b => decide (b ∈ rows))) := by
      refine hperm.trans ?_
      refine (List.perm_ext_iff_of_nodup hnod
        (List.Nodup.filter _ (by decide : BUCKET_ORDER.Nodup))).mpr ?_
      intro a
      simp only [List.mem_filter, decide_eq_true_eq]
      exact ⟨fun ha => ⟨hsub a ha, ha⟩, fun ha => ha.2⟩
    exact List.eq_of_perm_of_sorted hpermFilter hstrict htarget

/-- C9 witness: a concrete out-of-order subset of the enumeration sorts to
exactly the enumeration's relative order. -/
theorem c9_bucket_order_witness :
    sortBuckets ["24M", "1W", "6M"] =
      BUCKET_ORDER.filter (fun b => decide (b ∈ (["24M", "1W", "6M"] : List String)))
    ∧ BUCKET_ORDER.filter (fun b => decide (b ∈ (["24M", "1W", "6M"] : List String))) =
        ["1W", "6M", "24M"] :=
  ⟨(c9_bucket_order ["24M", "1W", "6M"]).2.2.2 (by decide) (by decide), by decide⟩

/-- C8 witness: a concrete failed read on an empty cache propagates as the
wrapped error, leaves the cache empty, and a retry with a healthy read
succeeds as a fresh miss. -/
theorem c8_cache_failure_isolation_witness :
    (QueryCache.lookup (⟨[]⟩ : QueryCache ℕ ℕ) 0 = Option.none)
    ∧ (query_df_cached (fun _ => Except.error "dns") 7
        (⟨[]⟩ : QueryCache ℕ ℕ) 0).1.1 =
        Except.error (PyErr.runtimeError (dbWrapMsg "dns"))
    ∧ (query_df_cached (fun _ => Except.ok 42) 9
        ((query_df_cached (fun _ => Except.error "dns") 7
          (⟨[]⟩ : QueryCache ℕ ℕ) 0).2) 0).1 = (Except.ok 42, false) := by
  have h := c8_cache_failure_isolation (α := ℕ)
    (fun _ => Except.error "dns") 7 ⟨[]⟩ 0 "dns" rfl rfl
  exact ⟨rfl, h.1, h.2.2 (fun _ => Except.ok 42) 42 9 rfl⟩

end Optio
